import Mathlib

/-!
Shallow embedding of the change-detection and state-persistence core of
`binsnitch.py` (a file-integrity-monitoring tool), together with proofs of
the specified properties of its classification, recording and persistence
logic.

The persisted registry (`binsnitch_data/db.json`) holds a list of records
`{path: string, sha256: [string, ...]}`; the program keeps an in-memory
copy in the global `cached_db`.  Functions that in Python read or assign
the global / the file are modelled in state-passing style: they take the
registry contents as an argument and return the new contents (and, where
relevant, the list of alert lines emitted through `logging.info`).
-/

set_option autoImplicit false

namespace Binsnitch

/-- `file_info` dictionaries carry the observed path and its fresh digest. -/
structure FileInfo where
  path : String
  sha256 : String
  deriving DecidableEq, Repr

/-- One record of `db.json`: a tracked path and its ordered digest history. -/
structure DbFile where
  path : String
  sha256 : List String
  deriving DecidableEq, Repr, Inhabited

/-- The registry: the parsed contents of `binsnitch_data/db.json`
(also the shape of the in-memory `cached_db`). -/
abbrev Registry := List DbFile

/-- The three status constants of `binsnitch.py` (lines 16-18). -/
inductive FileStatus where
  | FILE_KNOWN_UNTOUCHED
  | FILE_KNOWN_TOUCHED
  | FILE_UNKNOWN
  deriving DecidableEq, Repr

open FileStatus

/-- `check_file_status` (src lines 46-61): scan `cached_db` in order; at the
first record whose `path` equals the observed path, return `UNTOUCHED` when
the observed digest is a member of that record's digest-history list and
`TOUCHED` otherwise; when no record matches, return `UNKNOWN`.  The Python
function only reads the global `cached_db`; we thread the registry through
and return it alongside the status, mirroring that the loop performs no
assignment. -/
def check_file_status : Registry → FileInfo → FileStatus × Registry
  | [], _ => (FILE_UNKNOWN, [])
  | dbFile :: rest, fi =>
    if dbFile.path = fi.path then
      ((if fi.sha256 ∈ dbFile.sha256 then FILE_KNOWN_UNTOUCHED else FILE_KNOWN_TOUCHED),
       dbFile :: rest)
    else
      let r := check_file_status rest fi
      (r.1, dbFile :: r.2)

/-- The alert lines `add_alert_do_db` logs for one matching record
(src lines 75-79): `logging.info` on status `FILE_UNKNOWN` and on status
`FILE_KNOWN_TOUCHED`, nothing on `FILE_KNOWN_UNTOUCHED`.  Note the source
consults no baseline or alert-on-new flag here. -/
def alert_lines (dbPath : String) (fi : FileInfo) (status : FileStatus) : List String :=
  (if status = FILE_UNKNOWN then
    ["New file detected: " ++ dbPath ++ " - hash: " ++ fi.sha256] else [])
  ++ (if status = FILE_KNOWN_TOUCHED then
    ["Modified file detected: " ++ dbPath ++ " - new hash: " ++ fi.sha256] else [])

/-- The in-place mutation `add_alert_do_db` applies to one record of the
loaded db (src lines 71-73): when the record's path matches, append the
observed digest at the end of its history unless already present. -/
def update_db_file (fi : FileInfo) (f : DbFile) : DbFile :=
  if f.path = fi.path then
    { f with sha256 := if fi.sha256 ∈ f.sha256 then f.sha256 else f.sha256 ++ [fi.sha256] }
  else f

/-- `add_alert_do_db` (src lines 64-82): reload the db from file, walk every
record, mutate matching records per `update_db_file`, log alert lines per
`alert_lines` for matching records, then set `cached_db` to the result and
write it back to the file via `write_to_db`.  The first component is the new
registry (both the new `cached_db` and the contents written to `db.json`),
the second the alert lines logged, in order. -/
def add_alert_do_db (db : Registry) (fi : FileInfo) (status : FileStatus) :
    Registry × List String :=
  (db.map (update_db_file fi),
   db.flatMap (fun f => if f.path = fi.path then alert_lines f.path fi status else []))

/-- `add_file_to_db` (src lines 91-101): reload the db from file, append a
fresh record `{path, sha256: [digest]}` at the end, set `cached_db` and write
back.  Returns the new registry. -/
def add_file_to_db (db : Registry) (fi : FileInfo) : Registry :=
  db ++ [{ path := fi.path, sha256 := [fi.sha256] }]

/-- A mutating registry operation of the Recorder: either
`add_alert_do_db` (for already-classified observations) or `add_file_to_db`
(registering a new path). -/
inductive DbOp where
  | alert (fi : FileInfo) (status : FileStatus)
  | addFile (fi : FileInfo)

/-- Effect of one Recorder operation on the registry. -/
def apply_op (db : Registry) : DbOp → Registry
  | .alert fi status => (add_alert_do_db db fi status).1
  | .addFile fi => add_file_to_db db fi

/-- The parsed command-line options (src lines 174-188). -/
structure Args where
  dir : String
  verbose : Bool
  singlepass : Bool
  all : Bool
  new : Bool
  baseline : Bool
  wipe : Bool
  deriving DecidableEq, Repr

/-- The two persisted data files, as parsed contents; `none` models an
absent file. -/
structure DataFiles where
  db_json : Option Registry
  alerts_log : Option (List String)
  deriving DecidableEq, Repr

/-- `prepare_data_files` (src lines 113-136): when `args.wipe`, remove
`db.json` and `alerts.log` (IOError suppressed); then create `db.json` with
the empty list `[]` when it cannot be opened for reading, and create an
empty `alerts.log` when it cannot be opened for reading; finally
`refresh_cache` loads `db.json` into `cached_db`.  This function exists in
the source but is never invoked: the call in `main` (src line 227) is
commented out. -/
def prepare_data_files (args : Args) (fs : DataFiles) : DataFiles :=
  let fs1 : DataFiles := if args.wipe then { db_json := none, alerts_log := none } else fs
  { db_json := some (fs1.db_json.getD []),
    alerts_log := some (fs1.alerts_log.getD []) }

/-- Outcome of `scan` (src lines 196-213) up to the point the watchdog
observer is started: the lines printed, whether the process exits early
(`some code`), and whether the observer subscription was started.
`exit()` with no argument raises `SystemExit(None)`, which terminates the
process with exit status 0.  `isDir` models `os.path.isdir(args.dir)`. -/
structure ScanResult where
  printed : List String
  exitCode : Option Nat
  observerStarted : Bool
  deriving DecidableEq, Repr

/-- `scan` (src lines 196-213): when the target is not a directory, print
`"Error: <dir> could not be read, exiting."` and call `exit()` (exit
status 0) before any observer is created; otherwise schedule and start the
recursive watchdog observer. -/
def scan_run (isDir : Bool) (dir : String) : ScanResult :=
  if isDir = false then
    { printed := ["Error: " ++ dir ++ " could not be read, exiting."],
      exitCode := some 0,
      observerStarted := false }
  else
    { printed := [], exitCode := none, observerStarted := true }

/-- Effect of `scan` (src lines 196-213) on the two persisted data files:
it logs, checks the directory, and runs the watchdog observer, whose
handler only prints events (src lines 147-159); it never writes `db.json`
or `alerts.log`, so the files are unchanged. -/
def scan_data_files (fs : DataFiles) : DataFiles := fs

/-- Effect of `main` (src lines 216-229) on the two persisted data files:
`main` parses the arguments and calls `scan(args)`; the
`prepare_data_files(args)` call (src line 227) and the logging
configuration pointing at `alerts.log` (src lines 218-224) are commented
out, so no code path of `main` creates, deletes or writes either file,
whatever the arguments (in particular whatever `args.wipe`). -/
def main_data_files (args : Args) (fs : DataFiles) : DataFiles :=
  scan_data_files fs

/-- `dangerous_extensions` (src lines 20-25): the fixed, statically defined
set of executable/script-like extensions, verbatim from the source. -/
def dangerous_extensions : List String :=
  ["DMG", "DLL", "ACTION", "APK", "APP", "BAT", "BIN", "CMD", "COM", "COMMAND", "CPL",
   "CSH", "EXE", "GADGET", "INF1", "INS", "INX", "IPA", "ISU", "JOB", "JSE", "KSH",
   "LNK", "MSC", "MSI", "MSP", "MST", "OSX", "OUT", "PAF", "PIF", "PRG", "PS1", "REG",
   "RGS", "RUN", "SCT", "SH", "SHB", "SHS", "U3P", "VB", "VBE", "VBS", "VBSCRIPT",
   "WORKFLOW", "WS", "WSF"]

/-- The characters after the last `'.'` of the input (the whole input when
it contains no dot): `acc` accumulates the segment read since the last dot. -/
def ext_after_dot : List Char → List Char → List Char
  | [], acc => acc
  | c :: rest, acc =>
    if c = '.' then ext_after_dot rest [] else ext_after_dot rest (acc ++ [c])

/-- The extension of a path: the segment after the last `"."` (the whole
path when it contains no dot). -/
def file_extension (path : String) : String :=
  String.mk (ext_after_dot path.data [])

/-- Uppercase every character of a string. -/
def to_upper_string (s : String) : String :=
  String.mk (s.data.map Char.toUpper)

/-- Modelled from the spec: the Filter contract `isRelevant(path, trackAll)`
(spec section 4.2) is not implemented in the source — only the
`dangerous_extensions` set is declared (src lines 20-25) and never used.
Per the spec: when `trackAll` is false, a path is relevant iff its
extension, compared case-insensitively, is in the fixed allowlist
`dangerous_extensions` (whose entries are uppercase); when `trackAll` is
true, every regular file is relevant. -/
def is_relevant (path : String) (trackAll : Bool) : Bool :=
  trackAll || decide (to_upper_string (file_extension path) ∈ dangerous_extensions)

/-! ## Helper lemmas -/

/-- When no record's path matches, `check_file_status` falls through the
whole loop and returns `FILE_UNKNOWN`. -/
theorem check_file_status_not_found (fi : FileInfo) :
    ∀ db : Registry, (∀ g ∈ db, g.path ≠ fi.path) →
      (check_file_status db fi).1 = FileStatus.FILE_UNKNOWN := by
  intro db
  induction db with
  | nil => intro _; rfl
  | cons g t ih =>
    intro h
    have hg : g.path ≠ fi.path := h g (List.mem_cons_self g t)
    have ht := ih (fun x hx => h x (List.mem_cons_of_mem g hx))
    simp [check_file_status, hg, ht]

/-- When the paths in the registry are pairwise distinct and `f` is the
record of the observed path, the loop of `check_file_status` stops at `f`
and decides by membership in `f`'s digest history. -/
theorem check_file_status_found (fi : FileInfo) (f : DbFile) :
    ∀ db : Registry, db.Pairwise (fun a b => a.path ≠ b.path) →
      f ∈ db → f.path = fi.path →
      (check_file_status db fi).1 =
        if fi.sha256 ∈ f.sha256 then FileStatus.FILE_KNOWN_UNTOUCHED
        else FileStatus.FILE_KNOWN_TOUCHED := by
  intro db
  induction db with
  | nil => intro _ hf; cases hf
  | cons g t ih =>
    intro hnd hf hp
    rcases List.pairwise_cons.mp hnd with ⟨hg, ht⟩
    rcases List.mem_cons.mp hf with rfl | hft
    · simp [check_file_status, hp]
    · have hgf : g.path ≠ fi.path := fun hgp => (hg f hft) (hgp.trans hp.symm)
      simp [check_file_status, hgf]
      exact ih ht hft hp

/-- Under pairwise-distinct paths, any registry record sharing the observed
path with a record whose history contains the observed digest also contains
that digest (they are the same record). -/
theorem digest_mem_of_path_eq (fi : FileInfo) (f : DbFile) :
    ∀ db : Registry, db.Pairwise (fun a b => a.path ≠ b.path) →
      f ∈ db → f.path = fi.path → fi.sha256 ∈ f.sha256 →
      ∀ g ∈ db, g.path = fi.path → fi.sha256 ∈ g.sha256 := by
  intro db
  induction db with
  | nil => intro _ hf; cases hf
  | cons a t ih =>
    intro hnd hf hp hs g hg hgp
    rcases List.pairwise_cons.mp hnd with ⟨ha, ht⟩
    rcases List.mem_cons.mp hf with rfl | hft
    · rcases List.mem_cons.mp hg with rfl | hgt
      · exact hs
      · exact absurd (hp.trans hgp.symm) (ha g hgt)
    · rcases List.mem_cons.mp hg with rfl | hgt
      · exact absurd (hgp.trans hp.symm) (ha f hft)
      · exact ih ht hft hp hs g hgt hgp

/-- When every record matching the observed path already holds the observed
digest, the record-updating pass of `add_alert_do_db` is the identity. -/
theorem map_update_eq_self (fi : FileInfo) :
    ∀ db : Registry, (∀ g ∈ db, g.path = fi.path → fi.sha256 ∈ g.sha256) →
      db.map (update_db_file fi) = db := by
  intro db
  induction db with
  | nil => intro _; rfl
  | cons g t ih =>
    intro h
    have hg : update_db_file fi g = g := by
      by_cases hp : g.path = fi.path
      · unfold update_db_file
        rw [if_pos hp, if_pos (h g (List.mem_cons_self g t) hp)]
      · simp [update_db_file, hp]
    simp [hg, ih (fun x hx hxp => h x (List.mem_cons_of_mem g hx) hxp)]

/-- `add_alert_do_db` logs nothing on status `FILE_KNOWN_UNTOUCHED`:
neither `logging.info` branch of the source fires. -/
theorem snd_add_alert_untouched (db : Registry) (fi : FileInfo) :
    (add_alert_do_db db fi FileStatus.FILE_KNOWN_UNTOUCHED).2 = [] := by
  induction db with
  | nil => rfl
  | cons g t ih =>
    simp only [add_alert_do_db, List.flatMap_cons] at ih ⊢
    have h0 : alert_lines g.path fi FileStatus.FILE_KNOWN_UNTOUCHED = [] := rfl
    simp [h0, ih]

/-- When no record's path matches the observation, `add_alert_do_db`
changes nothing and logs nothing (but still rewrites the file). -/
theorem add_alert_frame (fi : FileInfo) (status : FileStatus) :
    ∀ db : Registry, (∀ f ∈ db, f.path ≠ fi.path) →
      add_alert_do_db db fi status = (db, []) := by
  intro db
  induction db with
  | nil => intro _; rfl
  | cons g t ih =>
    intro h
    have hg : g.path ≠ fi.path := h g (List.mem_cons_self g t)
    have ht := ih (fun x hx => h x (List.mem_cons_of_mem g hx))
    have ht1 : t.map (update_db_file fi) = t := congrArg Prod.fst ht
    have ht2 :
        t.flatMap (fun f => if f.path = fi.path then alert_lines f.path fi status else [])
          = [] := congrArg Prod.snd ht
    simp [add_alert_do_db, update_db_file, hg, ht1, ht2]

/-- A Recorder operation never removes registry records. -/
theorem length_le_apply_op (db : Registry) (op : DbOp) :
    db.length ≤ (apply_op db op).length := by
  cases op with
  | alert fi status => simp [apply_op, add_alert_do_db]
  | addFile fi => simp [apply_op, add_file_to_db]

/-- `update_db_file` leaves a record's digest history unchanged or appends
exactly the observed digest, and only when it was not already present. -/
theorem update_db_file_sha256 (fi : FileInfo) (x : DbFile) :
    (update_db_file fi x).sha256 = x.sha256 ∨
    (fi.sha256 ∉ x.sha256 ∧ (update_db_file fi x).sha256 = x.sha256 ++ [fi.sha256]) := by
  by_cases hp : x.path = fi.path
  · by_cases hs : fi.sha256 ∈ x.sha256
    · left; simp [update_db_file, hp, hs]
    · right; exact ⟨hs, by simp [update_db_file, hp, hs]⟩
  · left; simp [update_db_file, hp]

/-- One Recorder operation leaves the digest history of the record at
position `i` unchanged or appends exactly one digest not already present. -/
theorem apply_op_getD_sha256 (db : Registry) (op : DbOp) (i : Nat)
    (hi : i < db.length) :
    ((apply_op db op).getD i default).sha256 = (db.getD i default).sha256 ∨
    ∃ d, d ∉ (db.getD i default).sha256 ∧
      ((apply_op db op).getD i default).sha256 = (db.getD i default).sha256 ++ [d] := by
  cases op with
  | alert fi status =>
    have h1 : (apply_op db (DbOp.alert fi status)).getD i default
        = update_db_file fi (db.getD i default) := by
      show (db.map (update_db_file fi)).getD i default
          = update_db_file fi (db.getD i default)
      rw [List.getD_eq_getElem?_getD, List.getD_eq_getElem?_getD,
        List.getElem?_map, List.getElem?_eq_getElem hi]
      rfl
    rw [h1]
    rcases update_db_file_sha256 fi (db.getD i default) with h | ⟨hs, h⟩
    · exact Or.inl h
    · exact Or.inr ⟨fi.sha256, hs, h⟩
  | addFile fi =>
    left
    show ((db ++ [DbFile.mk fi.path [fi.sha256]]).getD i default).sha256
        = (db.getD i default).sha256
    rw [List.getD_eq_getElem?_getD, List.getElem?_append_left hi,
      ← List.getD_eq_getElem?_getD]

/-- Any sequence of Recorder operations only extends (as an initial
segment) the digest history of the record at position `i`. -/
theorem foldl_getD_extends (ops : List DbOp) :
    ∀ (db : Registry) (i : Nat), i < db.length →
      (db.getD i default).sha256 <+: ((ops.foldl apply_op db).getD i default).sha256 := by
  induction ops with
  | nil => intro db i _; exact ⟨[], List.append_nil _⟩
  | cons o rest ih =>
    intro db i hi
    have hi1 : i < (apply_op db o).length := lt_of_lt_of_le hi (length_le_apply_op db o)
    have htail := ih (apply_op db o) i hi1
    have hfold : (o :: rest).foldl apply_op db = rest.foldl apply_op (apply_op db o) := rfl
    rw [hfold]
    rcases apply_op_getD_sha256 db o i hi with heq | ⟨d, _, heq⟩
    · rw [← heq]; exact htail
    · rcases htail with ⟨t2, ht2⟩
      exact ⟨[d] ++ t2, by rw [← ht2, heq, List.append_assoc]⟩

/-! ## Claim theorems -/

/-- C1: For every registry and every observation (path, digest),
classification returns `FILE_UNKNOWN` when the path is not found in the
registry, `FILE_KNOWN_UNTOUCHED` when the path is found and the digest is
present anywhere in that path's digest history, and `FILE_KNOWN_TOUCHED`
when the path is found but the digest is not among the recorded history.
(The found cases assume the registry invariant that every path appears at
most once, so that "that path's digest history" is well defined.) -/
theorem C1_check_file_status_classification (db : Registry) (fi : FileInfo) :
    ((∀ f ∈ db, f.path ≠ fi.path) →
      (check_file_status db fi).1 = FileStatus.FILE_UNKNOWN) ∧
    (∀ f : DbFile, db.Pairwise (fun a b => a.path ≠ b.path) →
      f ∈ db → f.path = fi.path →
      ((fi.sha256 ∈ f.sha256 →
          (check_file_status db fi).1 = FileStatus.FILE_KNOWN_UNTOUCHED) ∧
       (fi.sha256 ∉ f.sha256 →
          (check_file_status db fi).1 = FileStatus.FILE_KNOWN_TOUCHED))) := by
  constructor
  · exact check_file_status_not_found fi db
  · intro f hnd hf hp
    have h := check_file_status_found fi f db hnd hf hp
    constructor
    · intro hs; rw [h, if_pos hs]
    · intro hs; rw [h, if_neg hs]

/-- Witness for C1: the three classification cases evaluated on concrete
registries and observations. -/
theorem C1_check_file_status_classification_witness :
    (check_file_status [DbFile.mk "a" ["h1"]] (FileInfo.mk "b" "h1")).1
        = FileStatus.FILE_UNKNOWN ∧
    (check_file_status [DbFile.mk "a" ["h1", "h2"]] (FileInfo.mk "a" "h1")).1
        = FileStatus.FILE_KNOWN_UNTOUCHED ∧
    (check_file_status [DbFile.mk "a" ["h1"]] (FileInfo.mk "a" "h3")).1
        = FileStatus.FILE_KNOWN_TOUCHED := by
  refine ⟨?_, ?_, ?_⟩
  · exact (C1_check_file_status_classification [DbFile.mk "a" ["h1"]]
      (FileInfo.mk "b" "h1")).1 (by decide)
  · exact ((C1_check_file_status_classification [DbFile.mk "a" ["h1", "h2"]]
      (FileInfo.mk "a" "h1")).2 (DbFile.mk "a" ["h1", "h2"])
      (by decide) (by decide) rfl).1 (by decide)
  · exact ((C1_check_file_status_classification [DbFile.mk "a" ["h1"]]
      (FileInfo.mk "a" "h3")).2 (DbFile.mk "a" ["h1"])
      (by decide) (by decide) rfl).2 (by decide)

/-- C2: For every path already recorded with some digest (under the
registry invariant of pairwise-distinct paths), re-observing the same
(path, digest) classifies as `FILE_KNOWN_UNTOUCHED`, and recording the
observation leaves the persisted registry content unchanged (so it stays
unchanged under any number of repetitions) and logs no alert line. -/
theorem C2_reobservation_idempotent (db : Registry) (fi : FileInfo) (f : DbFile)
    (hnd : db.Pairwise (fun a b => a.path ≠ b.path))
    (hf : f ∈ db) (hp : f.path = fi.path) (hs : fi.sha256 ∈ f.sha256) :
    (check_file_status db fi).1 = FileStatus.FILE_KNOWN_UNTOUCHED ∧
    (add_alert_do_db db fi FileStatus.FILE_KNOWN_UNTOUCHED).1 = db ∧
    (add_alert_do_db db fi FileStatus.FILE_KNOWN_UNTOUCHED).2 = [] ∧
    ∀ n : Nat,
      (fun d => (add_alert_do_db d fi FileStatus.FILE_KNOWN_UNTOUCHED).1)^[n] db = db := by
  have h1 : (check_file_status db fi).1 = FileStatus.FILE_KNOWN_UNTOUCHED := by
    rw [check_file_status_found fi f db hnd hf hp, if_pos hs]
  have h2 : (add_alert_do_db db fi FileStatus.FILE_KNOWN_UNTOUCHED).1 = db :=
    map_update_eq_self fi db (digest_mem_of_path_eq fi f db hnd hf hp hs)
  exact ⟨h1, h2, snd_add_alert_untouched db fi,
    fun n => Function.iterate_fixed h2 n⟩

/-- Witness for C2: a concrete single-record registry re-observed with its
already-recorded digest. -/
theorem C2_reobservation_idempotent_witness :
    (check_file_status [DbFile.mk "p" ["d"]] (FileInfo.mk "p" "d")).1
        = FileStatus.FILE_KNOWN_UNTOUCHED ∧
    (add_alert_do_db [DbFile.mk "p" ["d"]] (FileInfo.mk "p" "d")
        FileStatus.FILE_KNOWN_UNTOUCHED).1 = [DbFile.mk "p" ["d"]] ∧
    (add_alert_do_db [DbFile.mk "p" ["d"]] (FileInfo.mk "p" "d")
        FileStatus.FILE_KNOWN_UNTOUCHED).2 = [] ∧
    (fun d => (add_alert_do_db d (FileInfo.mk "p" "d")
        FileStatus.FILE_KNOWN_UNTOUCHED).1)^[3] [DbFile.mk "p" ["d"]]
      = [DbFile.mk "p" ["d"]] := by
  have h := C2_reobservation_idempotent [DbFile.mk "p" ["d"]] (FileInfo.mk "p" "d")
    (DbFile.mk "p" ["d"]) (by decide) (by decide) rfl (by decide)
  exact ⟨h.1, h.2.1, h.2.2.1, h.2.2.2 3⟩

/-- C3: For every registry position (i.e. tracked path, under the
at-most-once invariant) and every Recorder operation, the digest history at
that position is either left unchanged or extended by exactly one digest
appended at the end, and a digest already present is never re-appended;
consequently, over any sequence of Recorder operations the original history
persists as an initial segment (it never shrinks and is never reordered). -/
theorem C3_digest_history_append_only (db : Registry) (i : Nat)
    (hi : i < db.length) :
    (∀ op : DbOp,
        ((apply_op db op).getD i default).sha256 = (db.getD i default).sha256 ∨
        ∃ d, d ∉ (db.getD i default).sha256 ∧
          ((apply_op db op).getD i default).sha256
            = (db.getD i default).sha256 ++ [d]) ∧
    (∀ ops : List DbOp,
        (db.getD i default).sha256 <+:
          ((ops.foldl apply_op db).getD i default).sha256) :=
  ⟨fun op => apply_op_getD_sha256 db op i hi,
   fun ops => foldl_getD_extends ops db i hi⟩

/-- Witness for C3: a concrete registry, a single touching operation, and a
two-operation sequence. -/
theorem C3_digest_history_append_only_witness :
    (((apply_op [DbFile.mk "p" ["d1"]]
          (DbOp.alert (FileInfo.mk "p" "d2") FileStatus.FILE_KNOWN_TOUCHED)).getD
          0 default).sha256
        = (([DbFile.mk "p" ["d1"]] : Registry).getD 0 default).sha256 ∨
      ∃ d, d ∉ (([DbFile.mk "p" ["d1"]] : Registry).getD 0 default).sha256 ∧
        ((apply_op [DbFile.mk "p" ["d1"]]
            (DbOp.alert (FileInfo.mk "p" "d2") FileStatus.FILE_KNOWN_TOUCHED)).getD
            0 default).sha256
          = (([DbFile.mk "p" ["d1"]] : Registry).getD 0 default).sha256 ++ [d]) ∧
    (([DbFile.mk "p" ["d1"]] : Registry).getD 0 default).sha256 <+:
      (([DbOp.alert (FileInfo.mk "p" "d2") FileStatus.FILE_KNOWN_TOUCHED,
         DbOp.addFile (FileInfo.mk "q" "e1")].foldl apply_op
          [DbFile.mk "p" ["d1"]]).getD 0 default).sha256 :=
  ⟨(C3_digest_history_append_only [DbFile.mk "p" ["d1"]] 0 (by decide)).1
      (DbOp.alert (FileInfo.mk "p" "d2") FileStatus.FILE_KNOWN_TOUCHED),
   (C3_digest_history_append_only [DbFile.mk "p" ["d1"]] 0 (by decide)).2
      [DbOp.alert (FileInfo.mk "p" "d2") FileStatus.FILE_KNOWN_TOUCHED,
       DbOp.addFile (FileInfo.mk "q" "e1")]⟩

/-- C4: the claim says baseline mode suppresses all alert lines, and the
argparse help for `-b`/`--baseline` (src lines 184-185) documents it as
"do not generate alerts"; but `args.baseline` is never read anywhere in
the source and `add_alert_do_db` takes no baseline input: recording a
`FILE_KNOWN_TOUCHED` observation on a tracked path logs a
"Modified file detected" line unconditionally, in baseline mode as in any
other.  This theorem evaluates `add_alert_do_db` at such a failing input:
the alert line is emitted (and the registry is updated). -/
theorem C4_alert_emitted_despite_baseline :
    (add_alert_do_db [DbFile.mk "/bin/ls" ["d1"]] (FileInfo.mk "/bin/ls" "d2")
        FileStatus.FILE_KNOWN_TOUCHED).2
      = ["Modified file detected: /bin/ls - new hash: d2"] ∧
    (add_alert_do_db [DbFile.mk "/bin/ls" ["d1"]] (FileInfo.mk "/bin/ls" "d2")
        FileStatus.FILE_KNOWN_TOUCHED).1
      = [DbFile.mk "/bin/ls" ["d1", "d2"]] := by
  constructor <;> rfl

/-- C6 counterexample: the claim requires a non-zero exit code when the
monitored target is not a directory, but `scan` calls bare `exit()`
(src line 203), which terminates the process with exit status 0: at the
concrete non-directory target `"/missing"` the exit code is 0, not
non-zero. -/
theorem C6_exit_code_is_zero_counterexample :
    (scan_run false "/missing").exitCode = some 0 ∧
    ¬ ∃ c : Nat, c ≠ 0 ∧ (scan_run false "/missing").exitCode = some c := by
  constructor
  · rfl
  · rintro ⟨c, hc, he⟩
    have h0 : (scan_run false "/missing").exitCode = some 0 := rfl
    rw [h0] at he
    exact hc (Option.some.inj he).symm

/-- C6 amended: when the monitored target path does not exist or is not a
directory, the program fails before any watch subscription begins, printing
the diagnostic "Error: ... could not be read, exiting." — but it exits with
exit code 0 (a bare `exit()`), not a non-zero code. -/
theorem C6_nondir_diagnostic_early_exit (dir : String) :
    scan_run false dir =
      { printed := ["Error: " ++ dir ++ " could not be read, exiting."],
        exitCode := some 0,
        observerStarted := false } := rfl

/-- C7: the claim says `--wipe` deletes both persisted files before startup
so the registry and alert log are empty afterwards, and the argparse help
for `-w`/`--wipe` (src line 186) documents exactly that; but the only call
to `prepare_data_files` — the function implementing the wipe — is commented
out in `main` (src line 227), so running with `--wipe` leaves both files
exactly as they were.  This theorem evaluates the failing input: a run of
`main` with `wipe = true` over a non-empty registry and a non-empty alert
log changes neither, while `prepare_data_files` itself, had it been called,
would have emptied both. -/
theorem C7_wipe_never_invoked_by_main :
    main_data_files (Args.mk "/tmp" false false false false false true)
        (DataFiles.mk (some [DbFile.mk "p" ["d"]]) (some ["old alert line"]))
      = DataFiles.mk (some [DbFile.mk "p" ["d"]]) (some ["old alert line"]) ∧
    prepare_data_files (Args.mk "/tmp" false false false false false true)
        (DataFiles.mk (some [DbFile.mk "p" ["d"]]) (some ["old alert line"]))
      = DataFiles.mk (some []) (some []) := by
  constructor <;> rfl

/-- C8: with `trackAll` false a path is relevant iff its extension,
uppercased, is in the fixed `dangerous_extensions` allowlist taken verbatim
from the source; with `trackAll` true every path is relevant; in
particular `payload.exe` is relevant by default and `notes.txt` is not. -/
theorem C8_is_relevant_allowlist (path : String) :
    is_relevant path true = true ∧
    (is_relevant path false = true ↔
      to_upper_string (file_extension path) ∈ dangerous_extensions) ∧
    is_relevant "payload.exe" false = true ∧
    is_relevant "notes.txt" false = false := by
  refine ⟨rfl, ?_, by decide, by decide⟩
  simp [is_relevant]

/-- C9: classification is a pure read — `check_file_status` only reads the
registry, so the registry contents after the call are identical to the
contents before it. -/
theorem C9_classifier_no_mutation (db : Registry) (fi : FileInfo) :
    (check_file_status db fi).2 = db := by
  induction db with
  | nil => rfl
  | cons g t ih =>
    by_cases h : g.path = fi.path
    · simp [check_file_status, h]
    · simp [check_file_status, h, ih]

/-- C10: when `add_alert_do_db` is invoked for a path with no record in the
loaded registry — whatever the status, including `FILE_UNKNOWN` — the loop
body never fires, so the file is rewritten with its content unchanged (the
path is not added) and no alert line is logged; a record for a new path is
produced only by `add_file_to_db`, which appends it at the end. -/
theorem C10_unknown_path_frame (db : Registry) (fi : FileInfo)
    (status : FileStatus) (h : ∀ f ∈ db, f.path ≠ fi.path) :
    add_alert_do_db db fi status = (db, []) ∧
    add_file_to_db db fi = db ++ [DbFile.mk fi.path [fi.sha256]] ∧
    ∃ g ∈ add_file_to_db db fi, g.path = fi.path := by
  refine ⟨add_alert_frame fi status db h, rfl, ?_⟩
  exact ⟨DbFile.mk fi.path [fi.sha256], by simp [add_file_to_db], rfl⟩

/-- Witness for C10: `add_alert_do_db` invoked with status `FILE_UNKNOWN`
for a path absent from a concrete registry. -/
theorem C10_unknown_path_frame_witness :
    add_alert_do_db [DbFile.mk "a" ["h1"]] (FileInfo.mk "b" "k1")
        FileStatus.FILE_UNKNOWN = ([DbFile.mk "a" ["h1"]], []) ∧
    add_file_to_db [DbFile.mk "a" ["h1"]] (FileInfo.mk "b" "k1")
      = [DbFile.mk "a" ["h1"], DbFile.mk "b" ["k1"]] ∧
    ∃ g ∈ add_file_to_db [DbFile.mk "a" ["h1"]] (FileInfo.mk "b" "k1"),
      g.path = (FileInfo.mk "b" "k1").path := by
  have h := C10_unknown_path_frame [DbFile.mk "a" ["h1"]] (FileInfo.mk "b" "k1")
    FileStatus.FILE_UNKNOWN (by decide)
  exact ⟨h.1, h.2.1, h.2.2⟩

end Binsnitch
